import Mathlib

/-!
# Verification of `anvil/src/raw_drm.rs` (smithay)

A shallow embedding of the raw-DRM backend of the anvil compositor:
the output selection logic of `run_raw_drm` and the render pass of
`DrmHandlerImpl::ready`, together with proofs of the specified
properties.

External collaborators (the glium drawer's texture upload functions,
the EGL display binding) are modelled as oracles: function-valued
parameters whose result types follow their call-site types and the
interface contracts of the spec.
-/

namespace RawDrm

/-- Pixel formats of an EGL-imported wayland buffer
(`smithay::backend::graphics::egl::wayland::Format`).  The render pass
only distinguishes `RGB`/`RGBA` from everything else (matched by a
wildcard in the source). -/
inductive Format where
  | RGB
  | RGBA
  | External
  | Y_UV
  | Y_U_V
  | Y_XUXV
deriving DecidableEq, Repr

/-- The data of an EGL-imported image that the render pass reads:
its pixel format, the y-inversion flag, and its dimensions. -/
structure EGLImages where
  format : Format
  y_inverted : Bool
  width : Nat
  height : Nat
deriving DecidableEq, Repr

/-- `shell::Buffer`: a client buffer is either a GPU-imported EGL image
or a shared-memory block (raw bytes plus a declared size). -/
inductive Buffer where
  | Egl (images : EGLImages)
  | Shm (data : List Nat) (size : Nat × Nat)
deriving DecidableEq, Repr

/-- A GPU texture handle.  The render pass treats textures as opaque,
so an opaque identifier suffices. -/
abbrev Texture := Nat

/-- The per-surface render state (`SurfaceData`'s `buffer` and `texture`
fields, reached through `attributes.user_data`): an optional current
buffer and an optional cached texture. -/
structure UserData where
  buffer : Option Buffer
  texture : Option Texture
deriving DecidableEq, Repr

/-- The blending mode passed to `render_texture`; the source always
passes `Blend::alpha_blending()`. -/
inductive Blend where
  | alpha_blending
deriving DecidableEq, Repr

/-- Observable events of one render pass, in order of occurrence:
frame begin (`drawer.draw()`), the clear, the two texture-upload
primitives, a textured-quad draw, and frame submission
(`frame.finish()`). -/
inductive Event where
  | beginFrame
  | clear_color
  | uploadEgl (images : EGLImages)
  | uploadMem (data : List Nat) (size : Nat × Nat)
  | render_texture (texture : Texture) (y_inverted : Bool) (size : Nat × Nat)
      (position : Int × Int) (screen : Nat × Nat) (blend : Blend)
  | finishFrame
deriving DecidableEq, Repr

/-- `TraversalAction` as used by the visitor closure: descend into the
children carrying an updated offset, or skip the whole subtree. -/
inductive Action where
  | DoChildren (position : Int × Int)
  | SkipChildren
deriving DecidableEq, Repr

/-- The GPU upload oracles of the glium drawer.  `texture_from_egl`
may fail (its call site assigns its result directly to the `Option`
texture slot; the spec's `import_image_texture(image) -> Texture | None`);
`texture_from_mem` is total. -/
structure Drawer where
  texture_from_egl : EGLImages → Option Texture
  texture_from_mem : List Nat → Nat × Nat → Texture

/-- Events an upload primitive emits: used to state cache-hit
properties ("no texture upload is performed"). -/
def isUpload : Event → Bool
  | .uploadEgl _ => true
  | .uploadMem _ _ => true
  | _ => false

/-- Events that draw a surface: used to state "the surface is not
drawn". -/
def isRender : Event → Bool
  | .render_texture _ _ _ _ _ _ => true
  | _ => false

/-- The vertical-flip flag read from the buffer behind a present
texture (`raw_drm.rs` lines 208–211): `images.y_inverted` for an EGL
buffer, `false` for a shared-memory buffer. -/
def bufferFlip : Buffer → Bool
  | .Egl images => images.y_inverted
  | .Shm _ _ => false

/-- The quad dimensions read from the buffer behind a present texture
(`raw_drm.rs` lines 212–215): `(images.width, images.height)` for an
EGL buffer, the declared `size` for a shared-memory buffer. -/
def bufferDims : Buffer → Nat × Nat
  | .Egl images => (images.width, images.height)
  | .Shm _ size => size

/-- The texture-population step of the visitor (`raw_drm.rs` lines
172–197), run only when the cached texture is empty.  Returns the
updated per-surface state and the upload events performed.  The
source's `remove` flag is folded in: the only branch that sets it
(unsupported EGL format) clears both `texture` and `buffer`. -/
def populateTexture (drawer : Drawer) (ud : UserData) : UserData × List Event :=
  if ud.texture.isNone then
    match ud.buffer with
    | some (Buffer.Egl images) =>
      match images.format with
      | Format.RGB =>
        ({ ud with texture := drawer.texture_from_egl images }, [Event.uploadEgl images])
      | Format.RGBA =>
        ({ ud with texture := drawer.texture_from_egl images }, [Event.uploadEgl images])
      | _ =>
        -- "we don't handle the more complex formats here.": texture is
        -- left empty and `remove = true` drops the buffer reference.
        ({ buffer := none, texture := none }, [])
    | some (Buffer.Shm data size) =>
      ({ ud with texture := some (drawer.texture_from_mem data size) },
        [Event.uploadMem data size])
    | none => (ud, [])
  else (ud, [])

/-- The offset adjustment of `raw_drm.rs` lines 200–203: a subsurface
adds its role's relative location to the accumulated offset
(`x += subdata.location.0; y += subdata.location.1`); any other node
leaves it unchanged. -/
def adjust_position (role : Option (Int × Int)) (p : Int × Int) : Int × Int :=
  match role with
  | some loc => (p.1 + loc.1, p.2 + loc.2)
  | none => p

/-- The visitor closure passed to `with_surface_tree_upward`
(`raw_drm.rs` lines 170–225).  Inputs: the per-surface state, the
subsurface-relative location extracted from the node's role (when the
node is a subsurface), and the accumulated offset.  Output: `none`
models the panic of `buffer.as_ref().unwrap()` (a present texture with
an absent buffer); otherwise the updated state, the events emitted for
this node, and the traversal action returned to the walk. -/
def processNode (drawer : Drawer) (screen : Nat × Nat) (ud : UserData)
    (role : Option (Int × Int)) (p : Int × Int) :
    Option (UserData × List Event × Action) :=
  match (populateTexture drawer ud).1.texture with
  | some texture =>
    match (populateTexture drawer ud).1.buffer with
    | none => none   -- `attributes.user_data.buffer.as_ref().unwrap()` panics
    | some buf =>
      some ((populateTexture drawer ud).1,
        (populateTexture drawer ud).2 ++
          [Event.render_texture texture (bufferFlip buf) (bufferDims buf)
            (adjust_position role p) screen Blend.alpha_blending],
        Action.DoChildren (adjust_position role p))
  | none =>
    -- "we are not display, so our children are neither"
    some ((populateTexture drawer ud).1, (populateTexture drawer ud).2,
      Action.SkipChildren)

/-- A surface tree: each node carries its render state, the
subsurface-relative location from its role data (`none` for a node
that is not a subsurface, e.g. the top-level root), and its children. -/
inductive SurfaceTree where
  | node (ud : UserData) (role : Option (Int × Int)) (children : List SurfaceTree)

mutual

/-- Modelled from the spec: `with_surface_tree_upward` is smithay
library code (not part of this file's source); per the spec's
window/surface-tree provider contract it visits nodes pre-order,
supplies per-node mutable access to buffer/texture/role state, and the
per-node continuation decision either descends into the children with
an updated offset (`DoChildren`) or skips the entire subtree
(`SkipChildren`).  Returns the updated tree and the events emitted, or
`none` when the visitor panics. -/
def walkTree (drawer : Drawer) (screen : Nat × Nat) :
    SurfaceTree → Int × Int → Option (SurfaceTree × List Event)
  | SurfaceTree.node ud role children, p =>
    match processNode drawer screen ud role p with
    | none => none
    | some (ud1, evs, Action.SkipChildren) =>
      some (SurfaceTree.node ud1 role children, evs)
    | some (ud1, evs, Action.DoChildren q) =>
      match walkChildren drawer screen children q with
      | none => none
      | some (children1, evs1) =>
        some (SurfaceTree.node ud1 role children1, evs ++ evs1)

/-- Modelled from the spec: the walk over a node's children, in order,
each carrying the parent's updated offset. -/
def walkChildren (drawer : Drawer) (screen : Nat × Nat) :
    List SurfaceTree → Int × Int → Option (List SurfaceTree × List Event)
  | [], _ => some ([], [])
  | t :: ts, q =>
    match walkTree drawer screen t q with
    | none => none
    | some (t1, evs) =>
      match walkChildren drawer screen ts q with
      | none => none
      | some (ts1, evs1) => some (t1 :: ts1, evs ++ evs1)

end

/-- Modelled from the spec: `with_windows_from_bottom_to_top` iterates
the externally owned window stack bottom-to-top, pairing each top-level
surface with its placement; a window whose underlying surface is gone
(`get_surface()` returned `None`) is passed over.  Each mapped root is
walked with `with_surface_tree_upward` starting from its placement. -/
def drawWindows (drawer : Drawer) (screen : Nat × Nat) :
    List (Option SurfaceTree × (Int × Int)) →
    Option (List (Option SurfaceTree × (Int × Int)) × List Event)
  | [] => some ([], [])
  | (none, place) :: rest =>
    match drawWindows drawer screen rest with
    | none => none
    | some (rest1, evs) => some ((none, place) :: rest1, evs)
  | (some t, place) :: rest =>
    match walkTree drawer screen t place with
    | none => none
    | some (t1, evs) =>
      match drawWindows drawer screen rest with
      | none => none
      | some (rest1, evs1) => some ((some t1, place) :: rest1, evs ++ evs1)

/-- `DrmHandlerImpl::ready` (`raw_drm.rs` lines 149–232): one render
pass, invoked on every flip-completed signal.  Begins a frame
(`drawer.draw()`), clears it, draws the window stack bottom-to-top,
and finishes the frame.  `none` models a panic inside the pass (which
aborts before `finish`). -/
def ready (drawer : Drawer) (screen : Nat × Nat)
    (stack : List (Option SurfaceTree × (Int × Int))) :
    Option (List (Option SurfaceTree × (Int × Int)) × List Event) :=
  match drawWindows drawer screen stack with
  | none => none
  | some (stack1, evs) =>
    some (stack1, Event.beginFrame :: Event.clear_color :: (evs ++ [Event.finishFrame]))

/-! ## Output selection (`run_raw_drm`, lines 40–139) -/

/-- `connector::State`: the connection state reported by a connector. -/
inductive ConnectorState where
  | Connected
  | Disconnected
  | Unknown
deriving DecidableEq, Repr

/-- A display mode descriptor; opaque to this code (picked, never
inspected). -/
structure Mode where
  id : Nat
deriving DecidableEq, Repr

/-- `connector::Info` as read by the selector: its connection state,
its encoder handles in listed order, and its advertised modes in
listed order.  Handles are opaque numeric identifiers. -/
structure ConnectorInfo where
  handle : Nat
  connection_state : ConnectorState
  encoders : List Nat
  modes : List Mode
deriving DecidableEq, Repr

/-- `encoder::Info` as read by the selector: the currently bound CRTC
(if any) and the encoder's compatible-CRTC set (a bitmask in the
kernel; membership is all the code uses). -/
structure EncoderInfo where
  handle : Nat
  current_crtc : Option Nat
  possible_crtcs : List Nat
deriving DecidableEq, Repr

/-- The device's modesetting resource handles (`resource_handles()`):
connector and CRTC handles in enumeration order. -/
structure ResourceHandles where
  connectors : List Nat
  crtcs : List Nat
deriving DecidableEq, Repr

/-- `ResourceHandles::filter_crtcs`: the device's CRTCs restricted to
those compatible with the encoder, preserving device order. -/
def filter_crtcs (res : ResourceHandles) (possible : List Nat) : List Nat :=
  res.crtcs.filter (fun c => possible.contains c)

/-- The kernel device as the selector queries it: loading a connector's
or an encoder's info from its handle (`load_from_device`). -/
structure DrmDevice where
  connector_info : Nat → ConnectorInfo
  encoder_info : Nat → EncoderInfo

/-- Startup failures of the selection logic.  In the source each is a
panic (`unwrap` on `None`, an out-of-bounds index); the spec names the
first two (`NoConnectedOutput`, `NoCompatibleCrtc`). -/
inductive StartupError where
  | NoConnectedOutput
  | NoEncoder
  | NoCompatibleCrtc
  | NoMode
deriving DecidableEq, Repr

/-- Lines 56–62: load every connector's info and take the first whose
connection state is `Connected`. -/
def select_connector (dev : DrmDevice) (res : ResourceHandles) : Option ConnectorInfo :=
  (res.connectors.map dev.connector_info).find?
    (fun conn => conn.connection_state = ConnectorState.Connected)

/-- Lines 67–74: use the encoder's currently bound CRTC if any,
otherwise the first device CRTC compatible with the encoder;
`NoCompatibleCrtc` when that filtered set is empty. -/
def select_crtc (res : ResourceHandles) (enc : EncoderInfo) : Except StartupError Nat :=
  match enc.current_crtc with
  | some c => Except.ok c
  | none =>
    match filter_crtcs res enc.possible_crtcs with
    | c :: _ => Except.ok c
    | [] => Except.error StartupError.NoCompatibleCrtc

/-- The configuration `run_raw_drm` fixes at startup: the chosen
connector, encoder, CRTC and mode, plus the result of the EGL display
binding attempt (`none` when `bind_wl_display` failed). -/
structure StartupState where
  connector : ConnectorInfo
  encoder : EncoderInfo
  crtc : Nat
  mode : Mode
  egl_display : Option Nat
deriving DecidableEq, Repr

/-- Lines 94–101: the Client-Buffer Import Bridge.  The outcome of
`renderer.bind_wl_display(&display)` is turned into an optional
binding: kept on `Ok`, recorded as absent on `Err` (the `if let`),
never propagated as an error. -/
def bind_display (r : Except Nat Nat) : Option Nat :=
  match r with
  | Except.ok egl_display => some egl_display
  | Except.error _ => none

/-- The selection and bridge-binding logic of `run_raw_drm` (lines
54–101).  `bind_wl_display` is the outcome of
`renderer.bind_wl_display(&display)`, an oracle. -/
def run_raw_drm (dev : DrmDevice) (res : ResourceHandles)
    (bind_wl_display : Except Nat Nat) : Except StartupError StartupState :=
  match select_connector dev res with
  | none => Except.error StartupError.NoConnectedOutput
  | some connector_info =>
    match connector_info.encoders with
    | [] => Except.error StartupError.NoEncoder
    | e :: _ =>
      match select_crtc res (dev.encoder_info e) with
      | Except.error err => Except.error err
      | Except.ok crtc =>
        match connector_info.modes with
        | [] => Except.error StartupError.NoMode
        | mode :: _ =>
          Except.ok
            { connector := connector_info
              encoder := dev.encoder_info e
              crtc := crtc
              mode := mode
              egl_display := bind_display bind_wl_display }

/-! ## Invariants and equational characterization of the visitor -/

/-- The §3 data-model invariant on one surface's render state: a
non-empty texture only exists alongside a non-empty buffer. -/
def udInv (ud : UserData) : Prop := ud.texture.isSome → ud.buffer.isSome

/-- Everything a render-pass node emits is either a texture upload or
a textured-quad draw (never a frame begin/clear/finish). -/
def evOk (evs : List Event) : Prop := ∀ e ∈ evs, isUpload e || isRender e

/-- The §3 invariant on a whole surface tree. -/
def treeInv : SurfaceTree → Prop
  | SurfaceTree.node ud _ children => udInv ud ∧ ∀ c ∈ children, treeInv c

/-- The §3 invariant on the whole window stack (unmapped windows have
no surface state). -/
def stackInv (stack : List (Option SurfaceTree × (Int × Int))) : Prop :=
  ∀ w ∈ stack, ∀ t, w.1 = some t → treeInv t

/-! ## Concrete instances used by witnesses, scenarios and the
counterexample -/

/-- A drawer whose uploads always succeed: EGL imports yield texture
handle 1, memory uploads yield texture handle 2. -/
def okDrawer : Drawer :=
  { texture_from_egl := fun _ => some 1, texture_from_mem := fun _ _ => 2 }

/-- A drawer whose EGL import always fails (the spec's
`import_image_texture(image) -> Texture | None` allows `None`). -/
def failEglDrawer : Drawer :=
  { texture_from_egl := fun _ => none, texture_from_mem := fun _ _ => 0 }

/-- A 1×1 RGB EGL image. -/
def rgbImages : EGLImages :=
  { format := Format.RGB, y_inverted := false, width := 1, height := 1 }

/-- A childless top-level surface holding `rgbImages`, texture not yet
populated. -/
def rgbSurface : SurfaceTree :=
  SurfaceTree.node { buffer := some (Buffer.Egl rgbImages), texture := none } none []

/-- A window stack holding only `rgbSurface` at the origin. -/
def rgbStack : List (Option SurfaceTree × (Int × Int)) := [(some rgbSurface, (0, 0))]

/-- The spec's §8 scenario, child: a subsurface at relative offset
(10,10) holding a 100×100 shared-memory buffer. -/
def childSurface : SurfaceTree :=
  SurfaceTree.node { buffer := some (Buffer.Shm [] (100, 100)), texture := none }
    (some (10, 10)) []

/-- The spec's §8 scenario, root: a top-level surface (50×50
shared-memory buffer) whose only child is `childSurface`. -/
def topSurface : SurfaceTree :=
  SurfaceTree.node { buffer := some (Buffer.Shm [] (50, 50)), texture := none }
    none [childSurface]

/-- A device with two connectors (handles 1 and 2) where only the
second is connected: connector 2 lists encoders `[21, 22]` and modes
`[⟨200⟩, ⟨201⟩]`; encoder 21 reports current CRTC 31. -/
def twoConnectorDevice : DrmDevice where
  connector_info h :=
    if h = 1 then
      { handle := 1
        connection_state := ConnectorState.Disconnected
        encoders := [11]
        modes := [⟨100⟩] }
    else
      { handle := 2
        connection_state := ConnectorState.Connected
        encoders := [21, 22]
        modes := [⟨200⟩, ⟨201⟩] }
  encoder_info h :=
    if h = 21 then
      { handle := 21, current_crtc := some 31, possible_crtcs := [31] }
    else
      { handle := h, current_crtc := none, possible_crtcs := [] }

/-- Resource handles for `twoConnectorDevice`. -/
def twoConnectorRes : ResourceHandles := { connectors := [1, 2], crtcs := [31] }

/-- The startup state `run_raw_drm` must reach on `twoConnectorDevice`
with a successful EGL bind returning handle 5. -/
def twoConnectorState : StartupState where
  connector :=
    { handle := 2
      connection_state := ConnectorState.Connected
      encoders := [21, 22]
      modes := [⟨200⟩, ⟨201⟩] }
  encoder := { handle := 21, current_crtc := some 31, possible_crtcs := [31] }
  crtc := 31
  mode := ⟨200⟩
  egl_display := some 5

/-- `twoConnectorState` with the EGL binding recorded as absent: the
startup state reached when `bind_wl_display` fails. -/
def twoConnectorStateNoEgl : StartupState :=
  { twoConnectorState with egl_display := none }

/-- Resource handles whose single connector (handle 1, disconnected on
`twoConnectorDevice`) is never connected. -/
def noConnectedRes : ResourceHandles := { connectors := [1], crtcs := [] }

/-- A single drawable child (8×8 shared-memory buffer, subsurface at
relative (1,1)) under an undrawable parent, used to witness subtree
skipping. -/
def skipParentChild : List SurfaceTree :=
  [SurfaceTree.node { buffer := some (Buffer.Shm [] (8, 8)), texture := none } (some (1, 1)) []]

/-- Structural induction over surface trees (children via membership). -/
theorem SurfaceTree.ind (P : SurfaceTree → Prop)
    (h : ∀ ud role children, (∀ c ∈ children, P c) → P (SurfaceTree.node ud role children)) :
    ∀ t, P t
  | SurfaceTree.node ud role children =>
    h ud role children (fun c _ => SurfaceTree.ind P h c)

/-- Visiting a surface with no buffer and no texture does nothing:
state unchanged, no events, subtree skipped. -/
theorem processNode_empty (drawer : Drawer) (screen : Nat × Nat)
    (role : Option (Int × Int)) (p : Int × Int) :
    processNode drawer screen { buffer := none, texture := none } role p =
      some ({ buffer := none, texture := none }, [], Action.SkipChildren) := rfl

/-- Visiting a surface with a cached texture performs no upload and
draws one quad at the adjusted offset (cache hit). -/
theorem processNode_cached (drawer : Drawer) (screen : Nat × Nat) (buf : Buffer)
    (t : Texture) (role : Option (Int × Int)) (p : Int × Int) :
    processNode drawer screen { buffer := some buf, texture := some t } role p =
      some ({ buffer := some buf, texture := some t },
        [Event.render_texture t (bufferFlip buf) (bufferDims buf)
          (adjust_position role p) screen Blend.alpha_blending],
        Action.DoChildren (adjust_position role p)) := rfl

/-- A present texture with an absent buffer (violating the §3
invariant) makes the visitor's `unwrap` panic. -/
theorem processNode_stale (drawer : Drawer) (screen : Nat × Nat)
    (t : Texture) (role : Option (Int × Int)) (p : Int × Int) :
    processNode drawer screen { buffer := none, texture := some t } role p = none := rfl

/-- A shared-memory buffer with an empty texture slot is uploaded via
`texture_from_mem` and drawn, never vertically flipped, sized by the
declared size. -/
theorem processNode_shm (drawer : Drawer) (screen : Nat × Nat) (data : List Nat)
    (size : Nat × Nat) (role : Option (Int × Int)) (p : Int × Int) :
    processNode drawer screen { buffer := some (Buffer.Shm data size), texture := none } role p =
      some ({ buffer := some (Buffer.Shm data size),
              texture := some (drawer.texture_from_mem data size) },
        [Event.uploadMem data size,
         Event.render_texture (drawer.texture_from_mem data size) false size
           (adjust_position role p) screen Blend.alpha_blending],
        Action.DoChildren (adjust_position role p)) := rfl

/-- An RGB/RGBA EGL buffer whose import succeeds populates the texture
and draws with the image's y-inversion flag and dimensions. -/
theorem processNode_egl_ok (drawer : Drawer) (screen : Nat × Nat) (images : EGLImages)
    (tex : Texture) (role : Option (Int × Int)) (p : Int × Int)
    (hfmt : images.format = Format.RGB ∨ images.format = Format.RGBA)
    (hegl : drawer.texture_from_egl images = some tex) :
    processNode drawer screen { buffer := some (Buffer.Egl images), texture := none } role p =
      some ({ buffer := some (Buffer.Egl images), texture := some tex },
        [Event.uploadEgl images,
         Event.render_texture tex images.y_inverted (images.width, images.height)
           (adjust_position role p) screen Blend.alpha_blending],
        Action.DoChildren (adjust_position role p)) := by
  rcases hfmt with hfmt | hfmt <;>
    simp [processNode, populateTexture, hfmt, hegl, bufferFlip, bufferDims]

/-- An RGB/RGBA EGL buffer whose import fails leaves the texture empty
(and the buffer in place), emits the attempted upload, and skips the
subtree. -/
theorem processNode_egl_fail (drawer : Drawer) (screen : Nat × Nat) (images : EGLImages)
    (role : Option (Int × Int)) (p : Int × Int)
    (hfmt : images.format = Format.RGB ∨ images.format = Format.RGBA)
    (hegl : drawer.texture_from_egl images = none) :
    processNode drawer screen { buffer := some (Buffer.Egl images), texture := none } role p =
      some ({ buffer := some (Buffer.Egl images), texture := none },
        [Event.uploadEgl images], Action.SkipChildren) := by
  rcases hfmt with hfmt | hfmt <;>
    simp [processNode, populateTexture, hfmt, hegl]

/-- An EGL buffer with any pixel format other than RGB/RGBA is
dropped: no upload is attempted, the buffer reference is cleared, the
texture stays empty, and the subtree is skipped. -/
theorem processNode_egl_unsupported (drawer : Drawer) (screen : Nat × Nat)
    (images : EGLImages) (role : Option (Int × Int)) (p : Int × Int)
    (h1 : images.format ≠ Format.RGB) (h2 : images.format ≠ Format.RGBA) :
    processNode drawer screen { buffer := some (Buffer.Egl images), texture := none } role p =
      some ({ buffer := none, texture := none }, [], Action.SkipChildren) := by
  cases hfmt : images.format <;>
    simp_all [processNode, populateTexture]


theorem processNode_total (drawer : Drawer) (screen : Nat × Nat) (ud : UserData)
    (role : Option (Int × Int)) (p : Int × Int) (h : udInv ud) :
    ∃ out, processNode drawer screen ud role p = some out ∧
      udInv out.1 ∧ evOk out.2.1 := by
  obtain ⟨b, tx⟩ := ud
  rcases tx with _ | t
  · rcases b with _ | buf
    · exact ⟨_, processNode_empty drawer screen role p, by simp [udInv], by simp [evOk]⟩
    · cases buf with
      | Egl images =>
        by_cases hfmt : images.format = Format.RGB ∨ images.format = Format.RGBA
        · rcases hegl : drawer.texture_from_egl images with _ | tex
          · exact ⟨_, processNode_egl_fail drawer screen images role p hfmt hegl,
              by simp [udInv], by simp [evOk, isUpload]⟩
          · exact ⟨_, processNode_egl_ok drawer screen images tex role p hfmt hegl,
              by simp [udInv], by simp [evOk, isUpload, isRender]⟩
        · push_neg at hfmt
          exact ⟨_, processNode_egl_unsupported drawer screen images role p hfmt.1 hfmt.2,
            by simp [udInv], by simp [evOk]⟩
      | Shm data size =>
        exact ⟨_, processNode_shm drawer screen data size role p,
          by simp [udInv], by simp [evOk, isUpload, isRender]⟩
  · have hb : b.isSome := h (by simp)
    rcases b with _ | buf
    · simp at hb
    · exact ⟨_, processNode_cached drawer screen buf t role p,
        by simp [udInv], by simp [evOk, isRender]⟩

theorem walkTree_total (drawer : Drawer) (screen : Nat × Nat) :
    ∀ t : SurfaceTree, ∀ p : Int × Int, treeInv t →
      ∃ t1 evs, walkTree drawer screen t p = some (t1, evs) ∧
        treeInv t1 ∧ evOk evs := by
  intro t
  induction t using SurfaceTree.ind with
  | h ud role children ih =>
    intro p hinv
    rw [treeInv] at hinv
    obtain ⟨hud, hch⟩ := hinv
    obtain ⟨⟨ud1, evs0, act⟩, heq, hud1, hev0⟩ :=
      processNode_total drawer screen ud role p hud
    cases act with
    | SkipChildren =>
      refine ⟨SurfaceTree.node ud1 role children, evs0, ?_, ?_, hev0⟩
      · simp [walkTree, heq]
      · rw [treeInv]; exact ⟨hud1, hch⟩
    | DoChildren q =>
      have : ∃ cs1 evs1, walkChildren drawer screen children q = some (cs1, evs1) ∧
          (∀ c ∈ cs1, treeInv c) ∧ evOk evs1 := by
        clear heq
        induction children with
        | nil => exact ⟨[], [], rfl, by simp, by simp [evOk]⟩
        | cons c cs ihc =>
          obtain ⟨c1, evsc, heqc, hc1, hevc⟩ :=
            ih c (by simp) q (hch c (by simp))
          obtain ⟨cs1, evs1, heqs, hcs1, hevs⟩ :=
            ihc (fun x hx => ih x (by simp [hx])) (fun x hx => hch x (by simp [hx]))
          refine ⟨c1 :: cs1, evsc ++ evs1, ?_, ?_, ?_⟩
          · simp [walkChildren, heqc, heqs]
          · intro x hx
            rcases List.mem_cons.mp hx with hx | hx
            · exact hx ▸ hc1
            · exact hcs1 x hx
          · intro e he
            rcases List.mem_append.mp he with he | he
            · exact hevc e he
            · exact hevs e he
      obtain ⟨cs1, evs1, heqc, hcs1, hevs⟩ := this
      refine ⟨SurfaceTree.node ud1 role cs1, evs0 ++ evs1, ?_, ?_, ?_⟩
      · simp [walkTree, heq, heqc]
      · rw [treeInv]; exact ⟨hud1, hcs1⟩
      · intro e he
        rcases List.mem_append.mp he with he | he
        · exact hev0 e he
        · exact hevs e he


theorem drawWindows_total (drawer : Drawer) (screen : Nat × Nat) :
    ∀ stack, stackInv stack →
      ∃ stack1 evs, drawWindows drawer screen stack = some (stack1, evs) ∧ evOk evs := by
  intro stack
  induction stack with
  | nil => exact fun _ => ⟨[], [], rfl, by simp [evOk]⟩
  | cons w rest ih =>
    intro hinv
    obtain ⟨ow, place⟩ := w
    have hrest : stackInv rest := fun x hx => hinv x (by simp [hx])
    obtain ⟨rest1, evs1, heqr, hevr⟩ := ih hrest
    rcases ow with _ | t
    · exact ⟨(none, place) :: rest1, evs1, by simp [drawWindows, heqr], hevr⟩
    · have ht : treeInv t := hinv (some t, place) (by simp) t rfl
      obtain ⟨t1, evs0, heqt, _, hevt⟩ := walkTree_total drawer screen t place ht
      refine ⟨(some t1, place) :: rest1, evs0 ++ evs1, by simp [drawWindows, heqt, heqr], ?_⟩
      intro e he
      rcases List.mem_append.mp he with he | he
      · exact hevt e he
      · exact hevr e he

theorem ready_total (drawer : Drawer) (screen : Nat × Nat) (stack)
    (h : stackInv stack) :
    ∃ stack1 evs, ready drawer screen stack = some (stack1, evs) ∧
      evs.count Event.beginFrame = 1 ∧ evs.count Event.finishFrame = 1 ∧
      evs.getLast? = some Event.finishFrame := by
  obtain ⟨stack1, evs, heq, hev⟩ := drawWindows_total drawer screen stack h
  refine ⟨stack1, Event.beginFrame :: Event.clear_color :: (evs ++ [Event.finishFrame]),
    by simp [ready, heq], ?_, ?_, ?_⟩
  · have h0 : evs.count Event.beginFrame = 0 := by
      rw [List.count_eq_zero]
      intro hmem
      have := hev _ hmem
      simp [isUpload, isRender] at this
    simp [List.count_cons, List.count_append, h0]
  · have h0 : evs.count Event.finishFrame = 0 := by
      rw [List.count_eq_zero]
      intro hmem
      have := hev _ hmem
      simp [isUpload, isRender] at this
    simp [List.count_cons, List.count_append, h0]
  · rw [show Event.beginFrame :: Event.clear_color :: (evs ++ [Event.finishFrame]) =
      (Event.beginFrame :: Event.clear_color :: evs) ++ [Event.finishFrame] by simp]
    exact List.getLast?_concat _


theorem populateTexture_events (drawer : Drawer) (ud : UserData) :
    ∀ e ∈ (populateTexture drawer ud).2, isUpload e := by
  obtain ⟨b, tx⟩ := ud
  rcases tx with _ | t
  · rcases b with _ | buf
    · simp [populateTexture]
    · cases buf with
      | Egl images =>
        obtain ⟨fmt, yi, w, hgt⟩ := images
        cases fmt <;> simp [populateTexture, isUpload]
      | Shm data size => simp [populateTexture, isUpload]
  · simp [populateTexture]

theorem processNode_skip_char (drawer : Drawer) (screen : Nat × Nat) (ud : UserData)
    (role : Option (Int × Int)) (p : Int × Int) (ud1 : UserData) (evs : List Event)
    (act : Action)
    (heq : processNode drawer screen ud role p = some (ud1, evs, act))
    (hnone : ud1.texture = none) :
    act = Action.SkipChildren ∧ evs = (populateTexture drawer ud).2 ∧
      ∀ e ∈ evs, isUpload e := by
  unfold processNode at heq
  rcases htex : (populateTexture drawer ud).1.texture with _ | texture
  · rw [htex] at heq
    simp only [Option.some.injEq, Prod.mk.injEq] at heq
    obtain ⟨rfl, rfl, rfl⟩ := heq
    exact ⟨rfl, rfl, populateTexture_events drawer ud⟩
  · rw [htex] at heq
    rcases hbuf : (populateTexture drawer ud).1.buffer with _ | buf
    · rw [hbuf] at heq; simp at heq
    · rw [hbuf] at heq
      simp only [Option.some.injEq, Prod.mk.injEq] at heq
      obtain ⟨rfl, rfl, rfl⟩ := heq
      rw [htex] at hnone
      simp at hnone

theorem processNode_render_char (drawer : Drawer) (screen : Nat × Nat) (ud : UserData)
    (role : Option (Int × Int)) (p : Int × Int) (ud1 : UserData) (evs : List Event)
    (act : Action) (tex : Texture)
    (heq : processNode drawer screen ud role p = some (ud1, evs, act))
    (htex : ud1.texture = some tex) :
    ∃ buf, ud1.buffer = some buf ∧
      act = Action.DoChildren (adjust_position role p) ∧
      evs = (populateTexture drawer ud).2 ++
        [Event.render_texture tex (bufferFlip buf) (bufferDims buf)
          (adjust_position role p) screen Blend.alpha_blending] := by
  unfold processNode at heq
  rcases htex1 : (populateTexture drawer ud).1.texture with _ | texture
  · rw [htex1] at heq
    simp only [Option.some.injEq, Prod.mk.injEq] at heq
    obtain ⟨rfl, rfl, rfl⟩ := heq
    rw [htex1] at htex
    simp at htex
  · rw [htex1] at heq
    rcases hbuf : (populateTexture drawer ud).1.buffer with _ | buf
    · rw [hbuf] at heq; simp at heq
    · rw [hbuf] at heq
      simp only [Option.some.injEq, Prod.mk.injEq] at heq
      obtain ⟨rfl, rfl, rfl⟩ := heq
      rw [htex1] at htex
      simp only [Option.some.injEq] at htex
      subst htex
      exact ⟨buf, hbuf, rfl, rfl⟩

/-! ## Helper lemmas for the output selector -/

/-- `find?` over the loaded connector infos returns the first connected
one: everything before it is skipped, the first connected is taken. -/
theorem find_first_connected (f : Nat → ConnectorInfo) (l1 : List Nat) (conn : Nat)
    (l2 : List Nat)
    (hnot : ∀ c ∈ l1, (f c).connection_state ≠ ConnectorState.Connected)
    (hc : (f conn).connection_state = ConnectorState.Connected) :
    ((l1 ++ conn :: l2).map f).find?
      (fun ci => ci.connection_state = ConnectorState.Connected) = some (f conn) := by
  induction l1 with
  | nil => simp [List.find?_cons_of_pos, hc]
  | cons c cs ih =>
    have hcne := hnot c (by simp)
    rw [List.cons_append, List.map_cons, List.find?_cons_of_neg _ (by simp [hcne])]
    exact ih (fun x hx => hnot x (by simp [hx]))

/-- Inversion of a successful startup: the chosen connector came from
`select_connector`, the encoder is the connector's first listed one,
the CRTC came from `select_crtc`, the mode is the connector's first. -/
theorem run_raw_drm_ok_elim (dev : DrmDevice) (res : ResourceHandles)
    (bind : Except Nat Nat) (st : StartupState)
    (heq : run_raw_drm dev res bind = Except.ok st) :
    ∃ ci e es crtc m ms,
      select_connector dev res = some ci ∧
      ci.encoders = e :: es ∧
      select_crtc res (dev.encoder_info e) = Except.ok crtc ∧
      ci.modes = m :: ms ∧
      st = { connector := ci, encoder := dev.encoder_info e, crtc := crtc, mode := m,
             egl_display := bind_display bind } := by
  unfold run_raw_drm at heq
  split at heq
  · simp at heq
  next ci hsel =>
    split at heq
    · simp at heq
    next e es henc =>
      split at heq
      · simp at heq
      next crtc hcrtc =>
        split at heq
        · simp at heq
        next m ms hmode =>
          simp only [Except.ok.injEq] at heq
          exact ⟨ci, e, es, crtc, m, ms, hsel, henc, hcrtc, hmode, heq.symm⟩

theorem isOk_map {E A B : Type} (o : Except E A) (f : A → B) :
    (o.map f).isOk = o.isOk := by
  cases o <;> rfl

/-- The EGL bind outcome only ever lands in the `egl_display` field:
the rest of startup is the same for every outcome. -/
theorem run_raw_drm_display (dev : DrmDevice) (res : ResourceHandles)
    (r : Except Nat Nat) :
    run_raw_drm dev res r =
      (run_raw_drm dev res (Except.ok 0)).map
        (fun s => { s with egl_display := bind_display r }) := by
  unfold run_raw_drm
  split
  · rfl
  · split
    · rfl
    · split
      · rfl
      · split
        · rfl
        · rfl

/-! ## The claims -/

/-- **C1**: a surface visited with an empty cached texture and a
GPU-imported (EGL) buffer whose pixel format is neither RGB nor RGBA
has its buffer reference cleared, its texture left empty, no upload
attempted, and its subtree skipped; and the resulting
empty-buffer/empty-texture state is a fixed point of every later
visit, which emits no events (no import is attempted, nothing is
drawn) and skips the subtree — so the surface stays dropped on every
subsequent render pass until a new buffer arrives. -/
theorem unsupported_format_drops_buffer_forever
    (drawer : Drawer) (screen : Nat × Nat) (images : EGLImages)
    (role : Option (Int × Int)) (p later : Int × Int)
    (h1 : images.format ≠ Format.RGB) (h2 : images.format ≠ Format.RGBA) :
    processNode drawer screen { buffer := some (Buffer.Egl images), texture := none } role p =
      some ({ buffer := none, texture := none }, [], Action.SkipChildren) ∧
    processNode drawer screen { buffer := none, texture := none } role later =
      some ({ buffer := none, texture := none }, [], Action.SkipChildren) :=
  ⟨processNode_egl_unsupported drawer screen images role p h1 h2,
   processNode_empty drawer screen role later⟩

/-- Witness for C1 at a concrete input: format `External`, both
hypotheses discharged by `decide`. -/
theorem unsupported_format_drops_buffer_forever_witness :
    ((⟨Format.External, false, 4, 4⟩ : EGLImages).format ≠ Format.RGB ∧
     (⟨Format.External, false, 4, 4⟩ : EGLImages).format ≠ Format.RGBA) ∧
    (processNode okDrawer (64, 64)
        { buffer := some (Buffer.Egl ⟨Format.External, false, 4, 4⟩), texture := none }
        none (0, 0) =
      some ({ buffer := none, texture := none }, [], Action.SkipChildren) ∧
     processNode okDrawer (64, 64) { buffer := none, texture := none } none (1, 2) =
      some ({ buffer := none, texture := none }, [], Action.SkipChildren)) :=
  ⟨⟨by decide, by decide⟩,
   unsupported_format_drops_buffer_forever okDrawer (64, 64) ⟨Format.External, false, 4, 4⟩
     none (0, 0) (1, 2) (by decide) (by decide)⟩

/-- **C2, counterexample**: an RGB EGL buffer whose GPU import fails
(`texture_from_egl` returns `None`, which its interface allows)
refutes the claim: a full render pass on `rgbStack` returns the window
stack unchanged — the surface's buffer identity is unchanged and its
texture still empty — so the second consecutive pass, shown here
composed with the first, performs the `texture_from_egl` upload for
that surface again. -/
theorem failed_egl_import_reuploads_on_second_pass :
    (ready failEglDrawer (64, 64) rgbStack).bind
        (fun r => ready failEglDrawer (64, 64) r.1) =
      some (rgbStack,
        [Event.beginFrame, Event.clear_color, Event.uploadEgl rgbImages, Event.finishFrame]) ∧
    Event.uploadEgl rgbImages ∈
      [Event.beginFrame, Event.clear_color, Event.uploadEgl rgbImages, Event.finishFrame] :=
  ⟨rfl, by simp⟩

/-- **C2, amended**: for every surface whose buffer identity is
unchanged between two consecutive render passes *and whose cached
texture is non-empty when the second pass visits it* (i.e. the first
pass's upload succeeded — always the case for shared-memory buffers),
the second pass performs no texture upload for that surface: the
cached texture is reused unchanged. -/
theorem cached_texture_reused_without_upload
    (drawer : Drawer) (screen : Nat × Nat) (buf : Buffer) (t : Texture)
    (role : Option (Int × Int)) (p : Int × Int) :
    ∃ evs, processNode drawer screen { buffer := some buf, texture := some t } role p =
        some ({ buffer := some buf, texture := some t }, evs,
          Action.DoChildren (adjust_position role p)) ∧
      ∀ e ∈ evs, isUpload e = false := by
  refine ⟨_, processNode_cached drawer screen buf t role p, ?_⟩
  simp [isUpload]

/-- Witness for the amended C2 at a concrete input. -/
theorem cached_texture_reused_without_upload_witness :
    ∃ evs, processNode okDrawer (64, 64)
        { buffer := some (Buffer.Shm [] (2, 2)), texture := some 9 } none (3, 4) =
        some ({ buffer := some (Buffer.Shm [] (2, 2)), texture := some 9 }, evs,
          Action.DoChildren (3, 4)) ∧
      ∀ e ∈ evs, isUpload e = false :=
  cached_texture_reused_without_upload okDrawer (64, 64) (Buffer.Shm [] (2, 2)) 9 none (3, 4)

/-- **C3**: when a node's visit resolves no texture (the state after
the populate attempt has an empty texture), the walk of the subtree
rooted there returns the children untouched (no descendant is visited,
read, modified or rendered, whatever their buffers) and the only
events are the node's own upload attempts — in particular nothing is
drawn. -/
theorem undrawable_subtree_skipped
    (drawer : Drawer) (screen : Nat × Nat) (ud : UserData)
    (role : Option (Int × Int)) (children : List SurfaceTree) (p : Int × Int)
    (ud1 : UserData) (evs : List Event) (act : Action)
    (heq : processNode drawer screen ud role p = some (ud1, evs, act))
    (hnone : ud1.texture = none) :
    walkTree drawer screen (SurfaceTree.node ud role children) p =
      some (SurfaceTree.node ud1 role children, evs) ∧
    ∀ e ∈ evs, isUpload e := by
  obtain ⟨hact, _, hup⟩ :=
    processNode_skip_char drawer screen ud role p ud1 evs act heq hnone
  subst hact
  exact ⟨by simp [walkTree, heq], hup⟩

/-- Witness for C3: an empty parent above a child with a perfectly
valid shared-memory buffer; the child is not visited. -/
theorem undrawable_subtree_skipped_witness :
    (processNode okDrawer (64, 64) { buffer := none, texture := none } none (0, 0) =
        some ({ buffer := none, texture := none }, [], Action.SkipChildren) ∧
      (({ buffer := none, texture := none } : UserData)).texture = none) ∧
    (walkTree okDrawer (64, 64)
        (SurfaceTree.node { buffer := none, texture := none } none skipParentChild) (0, 0) =
        some (SurfaceTree.node { buffer := none, texture := none } none skipParentChild, []) ∧
      ∀ e ∈ ([] : List Event), isUpload e) :=
  ⟨⟨rfl, rfl⟩,
   undrawable_subtree_skipped okDrawer (64, 64) _ none skipParentChild (0, 0) _ _ _ rfl rfl⟩

/-- **C4**: a node whose visit resolves a texture draws one blended
textured quad at the offset adjusted by its subsurface-relative
location, sized by `bufferDims` (the buffer's declared dimensions),
vertically flipped per `bufferFlip` (the EGL image's y-inverted flag;
never for shared memory), and the walk then descends into the children
carrying the updated offset; and the spec's concrete scenario — a
top-level surface at (5,5) with a child subsurface at relative (10,10)
holding a 100×100 memory buffer — yields the child quad at (15,15),
size 100×100, not flipped. -/
theorem drawable_node_renders_and_descends :
    (∀ (drawer : Drawer) (screen : Nat × Nat) (ud : UserData) (role : Option (Int × Int))
        (p : Int × Int) (ud1 : UserData) (evs : List Event) (act : Action) (tex : Texture),
      processNode drawer screen ud role p = some (ud1, evs, act) →
      ud1.texture = some tex →
      ∃ buf, ud1.buffer = some buf ∧
        act = Action.DoChildren (adjust_position role p) ∧
        evs = (populateTexture drawer ud).2 ++
          [Event.render_texture tex (bufferFlip buf) (bufferDims buf)
            (adjust_position role p) screen Blend.alpha_blending]) ∧
    (∀ (drawer : Drawer) (screen : Nat × Nat) (ud : UserData) (role : Option (Int × Int))
        (children : List SurfaceTree) (p q : Int × Int) (ud1 : UserData)
        (evs evs1 : List Event) (cs1 : List SurfaceTree),
      processNode drawer screen ud role p = some (ud1, evs, Action.DoChildren q) →
      walkChildren drawer screen children q = some (cs1, evs1) →
      walkTree drawer screen (SurfaceTree.node ud role children) p =
        some (SurfaceTree.node ud1 role cs1, evs ++ evs1)) ∧
    (∀ images, bufferFlip (Buffer.Egl images) = images.y_inverted) ∧
    (∀ data size, bufferFlip (Buffer.Shm data size) = false) ∧
    ((ready okDrawer (800, 600) [(some topSurface, (5, 5))]).map Prod.snd =
      some [Event.beginFrame, Event.clear_color,
        Event.uploadMem [] (50, 50),
        Event.render_texture 2 false (50, 50) (5, 5) (800, 600) Blend.alpha_blending,
        Event.uploadMem [] (100, 100),
        Event.render_texture 2 false (100, 100) (15, 15) (800, 600) Blend.alpha_blending,
        Event.finishFrame]) := by
  refine ⟨?_, ?_, ?_, ?_, ?_⟩
  · exact fun drawer screen ud role p ud1 evs act tex heq htex =>
      processNode_render_char drawer screen ud role p ud1 evs act tex heq htex
  · intro drawer screen ud role children p q ud1 evs evs1 cs1 heq hwc
    simp [walkTree, heq, hwc]
  · intro images; rfl
  · intro data size; rfl
  · rfl

/-- Witness for C4 at a concrete input: a 3×4 memory buffer on a
subsurface at relative (10,10), visited at accumulated (5,5). -/
theorem drawable_node_renders_and_descends_witness :
    (processNode okDrawer (64, 64)
        { buffer := some (Buffer.Shm [] (3, 4)), texture := none } (some (10, 10)) (5, 5) =
        some ({ buffer := some (Buffer.Shm [] (3, 4)), texture := some 2 },
          [Event.uploadMem [] (3, 4),
           Event.render_texture 2 false (3, 4) (15, 15) (64, 64) Blend.alpha_blending],
          Action.DoChildren (15, 15)) ∧
      ({ buffer := some (Buffer.Shm [] (3, 4)), texture := some 2 } : UserData).texture =
        some 2) ∧
    (∃ buf, ({ buffer := some (Buffer.Shm [] (3, 4)), texture := some 2 } : UserData).buffer =
        some buf ∧
      Action.DoChildren (15, 15) = Action.DoChildren (adjust_position (some (10, 10)) (5, 5)) ∧
      [Event.uploadMem [] (3, 4),
       Event.render_texture 2 false (3, 4) (15, 15) (64, 64) Blend.alpha_blending] =
        (populateTexture okDrawer
          { buffer := some (Buffer.Shm [] (3, 4)), texture := none }).2 ++
          [Event.render_texture 2 (bufferFlip buf) (bufferDims buf)
            (adjust_position (some (10, 10)) (5, 5)) (64, 64) Blend.alpha_blending]) :=
  ⟨⟨rfl, rfl⟩,
   drawable_node_renders_and_descends.1 okDrawer (64, 64)
     { buffer := some (Buffer.Shm [] (3, 4)), texture := none } (some (10, 10)) (5, 5)
     _ _ _ 2 rfl rfl⟩

/-- **C5**: on a window stack whose surfaces satisfy the §3
texture-implies-buffer invariant, every flip-completed invocation of
the handler succeeds and its event trace contains exactly one frame
begin and exactly one frame finish, the finish being the very last
event — including the zero-drawable, background-only case (see the
witness, which runs the empty stack). -/
theorem render_pass_begins_and_finishes_once
    (drawer : Drawer) (screen : Nat × Nat)
    (stack : List (Option SurfaceTree × (Int × Int))) (h : stackInv stack) :
    ∃ stack1 evs, ready drawer screen stack = some (stack1, evs) ∧
      evs.count Event.beginFrame = 1 ∧ evs.count Event.finishFrame = 1 ∧
      evs.getLast? = some Event.finishFrame :=
  ready_total drawer screen stack h

/-- Witness for C5: the all-background, zero-surfaces case. -/
theorem render_pass_begins_and_finishes_once_witness :
    stackInv [] ∧
    (∃ stack1 evs, ready okDrawer (64, 64) [] = some (stack1, evs) ∧
      evs.count Event.beginFrame = 1 ∧ evs.count Event.finishFrame = 1 ∧
      evs.getLast? = some Event.finishFrame) :=
  ⟨by simp [stackInv],
   render_pass_begins_and_finishes_once okDrawer (64, 64) [] (by simp [stackInv])⟩

/-- **C6**: a visit of the render-pass visitor on a surface satisfying
the §3 invariant (non-empty texture implies non-empty buffer) never
panics — in particular the two `buffer.as_ref().unwrap()` reads behind
a present texture succeed — and the state it leaves satisfies the
invariant again. -/
theorem visit_never_panics_and_preserves_invariant
    (drawer : Drawer) (screen : Nat × Nat) (ud : UserData)
    (role : Option (Int × Int)) (p : Int × Int) (h : udInv ud) :
    ∃ out, processNode drawer screen ud role p = some out ∧ udInv out.1 := by
  obtain ⟨out, heq, hinv, _⟩ := processNode_total drawer screen ud role p h
  exact ⟨out, heq, hinv⟩

/-- Witness for C6 at a concrete input with a present texture. -/
theorem visit_never_panics_and_preserves_invariant_witness :
    udInv { buffer := some (Buffer.Shm [] (1, 1)), texture := some 3 } ∧
    (∃ out, processNode okDrawer (64, 64)
        { buffer := some (Buffer.Shm [] (1, 1)), texture := some 3 } none (0, 0) =
        some out ∧ udInv out.1) :=
  ⟨by simp [udInv],
   visit_never_panics_and_preserves_invariant okDrawer (64, 64)
     { buffer := some (Buffer.Shm [] (1, 1)), texture := some 3 } none (0, 0)
     (by simp [udInv])⟩

/-- **C7**: the Output Selector chooses the first connector in
enumeration order whose connection state is connected (everything
before it being unconnected), and when no connector is connected,
startup fails with `NoConnectedOutput`. -/
theorem first_connected_connector_chosen :
    (∀ (dev : DrmDevice) (res : ResourceHandles) (l1 : List Nat) (conn : Nat) (l2 : List Nat),
      res.connectors = l1 ++ conn :: l2 →
      (∀ c ∈ l1, (dev.connector_info c).connection_state ≠ ConnectorState.Connected) →
      (dev.connector_info conn).connection_state = ConnectorState.Connected →
      select_connector dev res = some (dev.connector_info conn)) ∧
    (∀ (dev : DrmDevice) (res : ResourceHandles) (bind : Except Nat Nat),
      (∀ c ∈ res.connectors,
        (dev.connector_info c).connection_state ≠ ConnectorState.Connected) →
      run_raw_drm dev res bind = Except.error StartupError.NoConnectedOutput) := by
  constructor
  · intro dev res l1 conn l2 hconn hnot hc
    unfold select_connector
    rw [hconn]
    exact find_first_connected (dev.connector_info) l1 conn l2 hnot hc
  · intro dev res bind hnone
    have hsel : select_connector dev res = none := by
      unfold select_connector
      rw [List.find?_eq_none]
      intro x hx
      obtain ⟨c, hcmem, rfl⟩ := List.mem_map.mp hx
      simp [hnone c hcmem]
    unfold run_raw_drm
    rw [hsel]

/-- Witness for C7: on `twoConnectorDevice` connector 2 (the first
connected one) is chosen; on `noConnectedRes` startup fails with
`NoConnectedOutput`. -/
theorem first_connected_connector_chosen_witness :
    (twoConnectorRes.connectors = [1] ++ 2 :: [] ∧
      (∀ c ∈ [1], (twoConnectorDevice.connector_info c).connection_state ≠
        ConnectorState.Connected) ∧
      (twoConnectorDevice.connector_info 2).connection_state = ConnectorState.Connected ∧
      select_connector twoConnectorDevice twoConnectorRes =
        some (twoConnectorDevice.connector_info 2)) ∧
    ((∀ c ∈ noConnectedRes.connectors,
        (twoConnectorDevice.connector_info c).connection_state ≠ ConnectorState.Connected) ∧
      run_raw_drm twoConnectorDevice noConnectedRes (Except.ok 0) =
        Except.error StartupError.NoConnectedOutput) :=
  ⟨⟨by decide, by decide, by decide,
    first_connected_connector_chosen.1 twoConnectorDevice twoConnectorRes [1] 2 []
      (by decide) (by decide) (by decide)⟩,
   ⟨by decide,
    first_connected_connector_chosen.2 twoConnectorDevice noConnectedRes (Except.ok 0)
      (by decide)⟩⟩

/-- **C8**: CRTC selection uses the encoder's currently bound CRTC
when one is reported; only otherwise does it take the first CRTC of
the device's resource set compatible with the encoder, failing with
`NoCompatibleCrtc` when that filtered set is empty; and the CRTC of
every successful startup is exactly this selection applied to the
chosen encoder. -/
theorem crtc_prefers_current_then_first_compatible :
    (∀ (res : ResourceHandles) (enc : EncoderInfo) (c : Nat),
      enc.current_crtc = some c → select_crtc res enc = Except.ok c) ∧
    (∀ (res : ResourceHandles) (enc : EncoderInfo) (c : Nat) (rest : List Nat),
      enc.current_crtc = none → filter_crtcs res enc.possible_crtcs = c :: rest →
      select_crtc res enc = Except.ok c) ∧
    (∀ (res : ResourceHandles) (enc : EncoderInfo),
      enc.current_crtc = none → filter_crtcs res enc.possible_crtcs = [] →
      select_crtc res enc = Except.error StartupError.NoCompatibleCrtc) ∧
    (∀ (dev : DrmDevice) (res : ResourceHandles) (bind : Except Nat Nat) (st : StartupState),
      run_raw_drm dev res bind = Except.ok st →
      select_crtc res st.encoder = Except.ok st.crtc) := by
  refine ⟨?_, ?_, ?_, ?_⟩
  · intro res enc c h; simp [select_crtc, h]
  · intro res enc c rest h hf; simp [select_crtc, h, hf]
  · intro res enc h hf; simp [select_crtc, h, hf]
  · intro dev res bind st heq
    obtain ⟨ci, e, es, crtc, m, ms, _, _, hcrtc, _, hst⟩ :=
      run_raw_drm_ok_elim dev res bind st heq
    subst hst
    simpa using hcrtc

/-- Witness for C8: encoder 21 reports current CRTC 31, which is
selected; and the full startup on `twoConnectorDevice` agrees. -/
theorem crtc_prefers_current_then_first_compatible_witness :
    (({ handle := 21, current_crtc := some 31, possible_crtcs := [31] } : EncoderInfo).current_crtc
        = some 31 ∧
      select_crtc twoConnectorRes
        { handle := 21, current_crtc := some 31, possible_crtcs := [31] } = Except.ok 31) ∧
    (run_raw_drm twoConnectorDevice twoConnectorRes (Except.ok 5) =
        Except.ok twoConnectorState ∧
      select_crtc twoConnectorRes twoConnectorState.encoder =
        Except.ok twoConnectorState.crtc) :=
  ⟨⟨rfl,
    crtc_prefers_current_then_first_compatible.1 twoConnectorRes
      { handle := 21, current_crtc := some 31, possible_crtcs := [31] } 31 rfl⟩,
   ⟨rfl,
    crtc_prefers_current_then_first_compatible.2.2.2 twoConnectorDevice twoConnectorRes
      (Except.ok 5) twoConnectorState rfl⟩⟩

/-- **C9**: every successful startup uses the chosen connector's first
listed encoder and first advertised mode, with no ranking or fallback;
and on a device reporting two connectors where only the second is
connected, the selector settles on the second connector's first
encoder (21) and first mode (200), ignoring the first connector (whose
state is not connected) entirely. -/
theorem first_encoder_and_first_mode_chosen :
    (∀ (dev : DrmDevice) (res : ResourceHandles) (bind : Except Nat Nat) (st : StartupState),
      run_raw_drm dev res bind = Except.ok st →
      (∃ e es, st.connector.encoders = e :: es ∧ st.encoder = dev.encoder_info e) ∧
      (∃ m ms, st.connector.modes = m :: ms ∧ st.mode = m)) ∧
    (run_raw_drm twoConnectorDevice twoConnectorRes (Except.ok 5) =
        Except.ok twoConnectorState ∧
      twoConnectorState.connector = twoConnectorDevice.connector_info 2 ∧
      twoConnectorState.encoder = twoConnectorDevice.encoder_info 21 ∧
      twoConnectorState.mode = Mode.mk 200 ∧
      (twoConnectorDevice.connector_info 1).connection_state ≠ ConnectorState.Connected) := by
  constructor
  · intro dev res bind st heq
    obtain ⟨ci, e, es, crtc, m, ms, _, henc, _, hmode, hst⟩ :=
      run_raw_drm_ok_elim dev res bind st heq
    subst hst
    exact ⟨⟨e, es, by simpa using henc, by simp⟩, ⟨m, ms, by simpa using hmode, by simp⟩⟩
  · exact ⟨rfl, by decide, by decide, by decide, by decide⟩

/-- Witness for C9: the general part applied to the concrete
two-connector startup. -/
theorem first_encoder_and_first_mode_chosen_witness :
    run_raw_drm twoConnectorDevice twoConnectorRes (Except.ok 5) =
        Except.ok twoConnectorState ∧
    ((∃ e es, twoConnectorState.connector.encoders = e :: es ∧
        twoConnectorState.encoder = twoConnectorDevice.encoder_info e) ∧
      (∃ m ms, twoConnectorState.connector.modes = m :: ms ∧
        twoConnectorState.mode = m)) :=
  ⟨rfl,
   first_encoder_and_first_mode_chosen.1 twoConnectorDevice twoConnectorRes
     (Except.ok 5) twoConnectorState rfl⟩

/-- **C10**: the outcome of the EGL display binding never decides
whether startup succeeds (it is never escalated to a fatal error), and
when the binding attempt fails the resulting startup state records the
binding as absent (so only the memory-copy import path remains). -/
theorem egl_bind_failure_never_fatal :
    (∀ (dev : DrmDevice) (res : ResourceHandles) (r1 r2 : Except Nat Nat),
      (run_raw_drm dev res r1).isOk = (run_raw_drm dev res r2).isOk) ∧
    (∀ (dev : DrmDevice) (res : ResourceHandles) (err : Nat) (st : StartupState),
      run_raw_drm dev res (Except.error err) = Except.ok st → st.egl_display = none) := by
  constructor
  · intro dev res r1 r2
    rw [run_raw_drm_display dev res r1, run_raw_drm_display dev res r2,
      isOk_map, isOk_map]
  · intro dev res err st heq
    obtain ⟨ci, e, es, crtc, m, ms, _, _, _, _, hst⟩ :=
      run_raw_drm_ok_elim dev res (Except.error err) st heq
    subst hst
    rfl

/-- Witness for C10: a failed bind on the two-connector device still
starts up, with the binding absent. -/
theorem egl_bind_failure_never_fatal_witness :
    run_raw_drm twoConnectorDevice twoConnectorRes (Except.error 7) =
        Except.ok twoConnectorStateNoEgl ∧
    twoConnectorStateNoEgl.egl_display = none :=
  ⟨rfl,
   egl_bind_failure_never_fatal.2 twoConnectorDevice twoConnectorRes 7
     twoConnectorStateNoEgl rfl⟩

end RawDrm
